import Mathlib

/-!
Shallow embedding of `src/importer.js`, a sequential batch job that checks
regulatory-document URLs for content changes, captures snapshots, and keeps a
versioned history in an external store.

Modelling conventions:
* The store (Supabase) data operations — `select`, `update`, `insert`, and the
  storage `upload` — resolve with a result carrying an optional `error`; they
  do not throw.  The importer inspects that error only for the initial select
  (line 26) and the snapshot upload (line 73), where it re-throws it; the
  updates at lines 53, 78 and 104 and the insert at line 91 discard their
  results.  We model a store-reported failure of each such call with a boolean
  flag in the per-document environment; a failed call leaves the store
  unchanged.
* The browser operations (`goto`, `evaluate`, `pdf`, `title`) throw on
  failure; a throw anywhere in the per-document `try` block transfers control
  to the `catch` block at lines 101–108.
* Timestamps (`new Date().toISOString()`) are drawn from the environment as a
  single per-document instant `now : Nat`.
* JavaScript truthiness is modelled explicitly: `doc.latest_version || 1`
  yields 1 for `null`/`0`, and `doc.content_hash` is truthy iff it is a
  non-null, non-empty string.
* The SHA-256 function is a parameter `hashFn : String → String`; the claims
  depend only on equality comparisons between digests.
-/

/-- A row of the `reg_documents` table (§3 of the spec; fields read and
written by `importer.js`).  Nullable columns are `Option`s. -/
structure DocRow where
  id : Nat
  canonical_url : String
  status : String
  latest_version : Option Nat
  content_hash : Option String
  title : Option String
  snapshot_path : Option String
  full_text : Option String
  retrieved_at : Option Nat
  last_checked_at : Option Nat
  updated_at : Option Nat
deriving Repr, DecidableEq

/-- A partial update of a `reg_documents` row, as passed to
`sb.from("reg_documents").update({...})`: `none` means the field is absent
from the update object and is left untouched. -/
structure DocUpdate where
  title : Option String := none
  status : Option String := none
  latest_version : Option Nat := none
  snapshot_path : Option String := none
  full_text : Option String := none
  content_hash : Option String := none
  retrieved_at : Option Nat := none
  last_checked_at : Option Nat := none
  updated_at : Option Nat := none
deriving Repr, DecidableEq

/-- A row of the append-only `reg_document_versions` table, as inserted at
lines 91–98 of `importer.js`. -/
structure VersionRow where
  reg_document_id : Nat
  version : Nat
  snapshot_path : String
  full_text : String
  content_hash : String
  retrieved_at : Nat
deriving Repr, DecidableEq

/-- Applying a partial update to a document row: fields present in the update
overwrite the row's fields, all others are untouched. -/
def applyUpdate (r : DocRow) (u : DocUpdate) : DocRow :=
  { r with
    title := match u.title with | none => r.title | some v => some v
    status := match u.status with | none => r.status | some v => v
    latest_version := match u.latest_version with | none => r.latest_version | some v => some v
    snapshot_path := match u.snapshot_path with | none => r.snapshot_path | some v => some v
    full_text := match u.full_text with | none => r.full_text | some v => some v
    content_hash := match u.content_hash with | none => r.content_hash | some v => some v
    retrieved_at := match u.retrieved_at with | none => r.retrieved_at | some v => some v
    last_checked_at := match u.last_checked_at with | none => r.last_checked_at | some v => some v
    updated_at := match u.updated_at with | none => r.updated_at | some v => some v }

/-- The store operations the per-document body can issue, in issue order.
The boolean records whether the store accepted the call (`false` = the store
resolved the call with an error in its result). -/
inductive Op where
  | upload (path : String) (ok : Bool)
  | updateDoc (u : DocUpdate) (applied : Bool)
  | insertVersion (v : VersionRow) (applied : Bool)
deriving Repr, DecidableEq

/-- Per-document external environment: outcomes of the browser calls, the
extracted text and title, the store's verdict on each fire-and-forget data
call, and the current time. -/
structure DocEnv where
  navOk : Bool
  evalOk : Bool
  text : String
  pdfOk : Bool
  uploadErr : Bool
  titleOk : Bool
  title : String
  checkedUpdateErr : Bool
  docUpdateErr : Bool
  versionInsertErr : Bool
  markErrorUpdateErr : Bool
  now : Nat
deriving Repr, DecidableEq

/-- Semantics of `doc.latest_version || 1` (line 46): JavaScript `||` falls
through on the falsy values `null` and `0`. -/
def jsOrNat (v : Option Nat) (d : Nat) : Nat :=
  match v with
  | none => d
  | some n => if n = 0 then d else n

/-- Truthiness of `doc.content_hash` (lines 47, 49, 51, 63): a string is
truthy iff non-null and non-empty. -/
def hashTruthy (h : Option String) : Bool :=
  match h with
  | none => false
  | some s => !(s == "")

/-- The change detector (lines 47–49):
`let changed = doc.content_hash ? doc.content_hash !== hash : true;`
followed by the redundant `if (!doc.content_hash) changed = true;`. -/
def changedOf (content_hash : Option String) (hash : String) : Bool :=
  let changed := if hashTruthy content_hash then content_hash != some hash else true
  if !hashTruthy content_hash then true else changed

/-- The update object of the unchanged branch (lines 53–56): only `status`
and `last_checked_at`. -/
def checkedUpdate (now : Nat) : DocUpdate :=
  { status := some "active", last_checked_at := some now }

/-- The update object of the changed branch (lines 78–88). -/
def contentUpdate (title : String) (nextVersion : Nat) (path text hash : String)
    (now : Nat) : DocUpdate :=
  { title := some title
    status := some "active"
    latest_version := some nextVersion
    snapshot_path := some path
    full_text := some text
    content_hash := some hash
    retrieved_at := some now
    last_checked_at := some now
    updated_at := some now }

/-- The update object of the catch block (lines 104–108). -/
def errorUpdate (now : Nat) : DocUpdate :=
  { status := some "error", last_checked_at := some now, updated_at := some now }

/-- The storage key `${doc.id}/v${nextVersion}/snapshot.pdf` (line 69). -/
def snapshotPath (id version : Nat) : String :=
  toString id ++ "/v" ++ toString version ++ "/snapshot.pdf"

/-- The body of the per-document `try` block (lines 38–100): the list of
store operations it issues, paired with `true` iff it throws (browser
failure, or the re-thrown upload error at line 73). -/
def tryBody (hashFn : String → String) (env : DocEnv) (doc : DocRow) :
    List Op × Bool :=
  if !env.navOk then ([], true)
  else if !env.evalOk then ([], true)
  else
    let text := env.text
    let hash := hashFn text
    let nextVersion := jsOrNat doc.latest_version 1
    let changed := changedOf doc.content_hash hash
    if hashTruthy doc.content_hash && !changed then
      ([Op.updateDoc (checkedUpdate env.now) (!env.checkedUpdateErr)], false)
    else
      let nextVersion :=
        if hashTruthy doc.content_hash then jsOrNat doc.latest_version 1 + 1
        else nextVersion
      if !env.pdfOk then ([], true)
      else
        let path := snapshotPath doc.id nextVersion
        if env.uploadErr then ([Op.upload path false], true)
        else if !env.titleOk then ([Op.upload path true], true)
        else
          ([Op.upload path true,
            Op.updateDoc
              (contentUpdate env.title nextVersion path text hash env.now)
              (!env.docUpdateErr),
            Op.insertVersion
              { reg_document_id := doc.id
                version := nextVersion
                snapshot_path := path
                full_text := text
                content_hash := hash
                retrieved_at := env.now }
              (!env.versionInsertErr)], false)

/-- Processing of one document (the loop body, lines 35–109): run the `try`
body; on a throw, append the catch block's status→error update (lines
101–108), whose own result is discarded. -/
def processDoc (hashFn : String → String) (env : DocEnv) (doc : DocRow) :
    List Op :=
  match tryBody hashFn env doc with
  | (ops, false) => ops
  | (ops, true) =>
      ops ++ [Op.updateDoc (errorUpdate env.now) (!env.markErrorUpdateErr)]

/-- The external store: the two tables and the blob container. -/
structure Store where
  docs : List DocRow
  versions : List VersionRow
  blobs : List String
deriving Repr, DecidableEq

/-- Semantics of `update(...).eq("id", targetId)`: apply the partial update to every row
whose `id` matches. -/
def updateWhere (docs : List DocRow) (targetId : Nat) (u : DocUpdate) :
    List DocRow :=
  docs.map (fun r => if r.id = targetId then applyUpdate r u else r)

/-- Semantics of `upload(path, ..., { upsert: true })`: overwrite, never
duplicate. -/
def upsertBlob (blobs : List String) (path : String) : List String :=
  if blobs.contains path then blobs else blobs ++ [path]

/-- Effect of one issued operation on the store; a call the store resolved
with an error leaves the store unchanged. -/
def applyOp (st : Store) (targetId : Nat) (op : Op) : Store :=
  match op with
  | Op.upload path ok =>
      if ok then { st with blobs := upsertBlob st.blobs path } else st
  | Op.updateDoc u applied =>
      if applied then { st with docs := updateWhere st.docs targetId u } else st
  | Op.insertVersion v applied =>
      if applied then { st with versions := st.versions ++ [v] } else st

/-- Effect of a sequence of issued operations on the store. -/
def applyOps (st : Store) (targetId : Nat) (ops : List Op) : Store :=
  ops.foldl (fun s op => applyOp s targetId op) st

/-- The initial query (lines 20–24): rows with `status = "pending"`,
`limit(20)`, in store order. -/
def selectPending (st : Store) : List DocRow :=
  (st.docs.filter (fun d => d.status == "pending")).take 20

/-- The run's per-document trace: which documents the loop attempts, and the
operations each attempt issues.  The loop iterates over the list fetched
once at the start. -/
def runTrace (hashFn : String → String) (envOf : Nat → DocEnv) (st : Store) :
    List (Nat × List Op) :=
  (selectPending st).map (fun d => (d.id, processDoc hashFn (envOf d.id) d))

/-- The store after a whole run. -/
def runBatch (hashFn : String → String) (envOf : Nat → DocEnv) (st : Store) :
    Store :=
  (selectPending st).foldl
    (fun s d => applyOps s d.id (processDoc hashFn (envOf d.id) d)) st

/-- Is an operation a version-row insert? -/
def isVersionInsert : Op → Bool
  | Op.insertVersion _ _ => true
  | _ => false

/-- Is an operation an upload? -/
def isUpload : Op → Bool
  | Op.upload _ _ => true
  | _ => false

/-- Is an operation a document-row update that sets `status` to `"error"`? -/
def isErrorMark : Op → Bool
  | Op.updateDoc u _ => u.status == some "error"
  | _ => false

/-! ## Helper lemmas -/

/-- The run always attempts exactly the selected documents, in order,
whatever the per-document outcomes are. -/
theorem runTrace_map_fst (hashFn : String → String) (envOf : Nat → DocEnv)
    (st : Store) :
    (runTrace hashFn envOf st).map Prod.fst = (selectPending st).map DocRow.id := by
  simp [runTrace, List.map_map]

/-- The batch query returns at most 20 rows. -/
theorem selectPending_length_le (st : Store) : (selectPending st).length ≤ 20 := by
  simp [selectPending]

/-! ## Claims -/

/-- Claim C2: for every document with no previously stored `content_hash`,
the change detector reports `changed = true`, regardless of what text is
fetched (hence of its hash). -/
theorem no_stored_hash_always_changed (hash : String) :
    changedOf none hash = true := rfl

/-- Claim C9: in every run, at most 20 pending documents are fetched, and
the loop attempts exactly the fetched documents — so at most 20 are
attempted, even when more than 20 documents are pending. -/
theorem batch_size_capped (hashFn : String → String) (envOf : Nat → DocEnv)
    (st : Store) :
    (selectPending st).length ≤ 20
    ∧ (runTrace hashFn envOf st).length = (selectPending st).length := by
  refine ⟨selectPending_length_le st, ?_⟩
  simp [runTrace]

/-- Claim C8: the document at position `j` of the batch is always attempted,
with its own processing outcome, regardless of what the environment did to
every other document of the batch (in particular, regardless of any failure
while processing an earlier document); and the loop attempts exactly as many
documents as were fetched. -/
theorem doc_failure_never_stops_batch (hashFn : String → String)
    (envOf : Nat → DocEnv) (st : Store) (j : Nat) (d : DocRow)
    (hj : (selectPending st)[j]? = some d) :
    (runTrace hashFn envOf st)[j]? =
      some (d.id, processDoc hashFn (envOf d.id) d)
    ∧ (runTrace hashFn envOf st).length = (selectPending st).length := by
  constructor
  · simp [runTrace, hj]
  · simp [runTrace]

/-! ## Concrete instances used by witnesses and counterexamples -/

/-- A fully successful per-document environment. -/
def exEnvOk : DocEnv :=
  { navOk := true, evalOk := true, text := "body", pdfOk := true
    uploadErr := false, titleOk := true, title := "T"
    checkedUpdateErr := false, docUpdateErr := false
    versionInsertErr := false, markErrorUpdateErr := false, now := 5 }

/-- A per-document environment in which every operation fails. -/
def exEnvFail : DocEnv :=
  { navOk := false, evalOk := false, text := "", pdfOk := false
    uploadErr := true, titleOk := false, title := ""
    checkedUpdateErr := true, docUpdateErr := true
    versionInsertErr := true, markErrorUpdateErr := true, now := 9 }

/-- A pending document with a stored hash and version. -/
def exRow : DocRow :=
  { id := 7, canonical_url := "u", status := "pending"
    latest_version := some 3, content_hash := some "H1"
    title := none, snapshot_path := none, full_text := none
    retrieved_at := none, last_checked_at := none, updated_at := none }

/-- A toy digest function: the fetched text `"body"` hashes to `"H2"`. -/
def exHash : String → String := fun s => if s == "body" then "H2" else "H1"

/-- A two-document store. -/
def exStore2 : Store :=
  { docs := [exRow, { exRow with id := 8 }], versions := [], blobs := [] }

/-- Environments for `exStore2`: document 7 fails everything, document 8
succeeds. -/
def exEnvOf : Nat → DocEnv := fun i => if i == 7 then exEnvFail else exEnvOk

/-- Witness for C8: in `exStore2` the first document fails at every step, yet
the second document is still attempted. -/
theorem doc_failure_never_stops_batch_witness :
    (runTrace exHash exEnvOf exStore2)[1]? =
      some (8, processDoc exHash (exEnvOf 8) { exRow with id := 8 })
    ∧ (runTrace exHash exEnvOf exStore2).length = (selectPending exStore2).length :=
  doc_failure_never_stops_batch exHash exEnvOf exStore2 1 { exRow with id := 8 }
    (by decide)

/-- Claim C1: for a document whose stored `content_hash` is a (non-empty)
digest differing from the digest of the newly fetched text, a successful pass
issues exactly one document-row update setting `latest_version` to the old
stored value plus 1, and exactly one version-row insert carrying that same
version number. -/
theorem changed_doc_increments_version (hashFn : String → String)
    (env : DocEnv) (doc : DocRow) (h : String) (v : Nat)
    (hnav : env.navOk = true) (heval : env.evalOk = true)
    (hpdf : env.pdfOk = true) (hup : env.uploadErr = false)
    (htitle : env.titleOk = true)
    (hhash : doc.content_hash = some h) (hne : h ≠ "")
    (hdiff : h ≠ hashFn env.text)
    (hver : doc.latest_version = some v) (hv : v ≠ 0) :
    processDoc hashFn env doc =
      [Op.upload (snapshotPath doc.id (v + 1)) true,
       Op.updateDoc
         (contentUpdate env.title (v + 1) (snapshotPath doc.id (v + 1))
           env.text (hashFn env.text) env.now) (!env.docUpdateErr),
       Op.insertVersion
         { reg_document_id := doc.id
           version := v + 1
           snapshot_path := snapshotPath doc.id (v + 1)
           full_text := env.text
           content_hash := hashFn env.text
           retrieved_at := env.now } (!env.versionInsertErr)]
    ∧ (contentUpdate env.title (v + 1) (snapshotPath doc.id (v + 1))
         env.text (hashFn env.text) env.now).latest_version = some (v + 1)
    ∧ (processDoc hashFn env doc).countP isVersionInsert = 1 := by
  have htr : hashTruthy doc.content_hash = true := by
    simp [hashTruthy, hhash, hne]
  have hch : changedOf doc.content_hash (hashFn env.text) = true := by
    simp [changedOf, htr, hhash, hdiff]
  have hmain : processDoc hashFn env doc =
      [Op.upload (snapshotPath doc.id (v + 1)) true,
       Op.updateDoc
         (contentUpdate env.title (v + 1) (snapshotPath doc.id (v + 1))
           env.text (hashFn env.text) env.now) (!env.docUpdateErr),
       Op.insertVersion
         { reg_document_id := doc.id
           version := v + 1
           snapshot_path := snapshotPath doc.id (v + 1)
           full_text := env.text
           content_hash := hashFn env.text
           retrieved_at := env.now } (!env.versionInsertErr)] := by
    simp [processDoc, tryBody, hnav, heval, hpdf, hup, htitle, htr, hch,
      hver, jsOrNat, hv]
  refine ⟨hmain, rfl, ?_⟩
  rw [hmain]
  simp [List.countP_cons, isVersionInsert]

/-- Witness for C1: processing `exRow` (stored hash `"H1"`, version 3) when
`"body"` hashes to `"H2"` issues exactly one version-row insert. -/
theorem changed_doc_increments_version_witness :
    (processDoc exHash exEnvOk exRow).countP isVersionInsert = 1 :=
  (changed_doc_increments_version exHash exEnvOk exRow "H1" 3 rfl rfl rfl rfl
    rfl rfl (by decide) (by decide) rfl (by decide)).2.2

/-- Claim C3: for a document whose stored `content_hash` equals the digest of
the newly fetched text, the only operation issued is a document-row update
carrying just `status := "active"` and `last_checked_at`; applying it leaves
`latest_version`, `content_hash`, `full_text`, `title`, `snapshot_path`,
`retrieved_at` and `updated_at` untouched, and no version row is inserted and
no upload occurs. -/
theorem unchanged_doc_touches_only_status_and_checked
    (hashFn : String → String) (env : DocEnv) (doc : DocRow) (h : String)
    (hnav : env.navOk = true) (heval : env.evalOk = true)
    (hhash : doc.content_hash = some h) (hne : h ≠ "")
    (heq : hashFn env.text = h) :
    processDoc hashFn env doc =
      [Op.updateDoc (checkedUpdate env.now) (!env.checkedUpdateErr)]
    ∧ (checkedUpdate env.now).status = some "active"
    ∧ (checkedUpdate env.now).last_checked_at = some env.now
    ∧ (∀ r : DocRow,
        (applyUpdate r (checkedUpdate env.now)).latest_version = r.latest_version
        ∧ (applyUpdate r (checkedUpdate env.now)).content_hash = r.content_hash
        ∧ (applyUpdate r (checkedUpdate env.now)).full_text = r.full_text
        ∧ (applyUpdate r (checkedUpdate env.now)).title = r.title
        ∧ (applyUpdate r (checkedUpdate env.now)).snapshot_path = r.snapshot_path
        ∧ (applyUpdate r (checkedUpdate env.now)).retrieved_at = r.retrieved_at
        ∧ (applyUpdate r (checkedUpdate env.now)).updated_at = r.updated_at)
    ∧ (processDoc hashFn env doc).countP isVersionInsert = 0
    ∧ (processDoc hashFn env doc).countP isUpload = 0 := by
  have htr : hashTruthy doc.content_hash = true := by
    simp [hashTruthy, hhash, hne]
  have hch : changedOf doc.content_hash (hashFn env.text) = false := by
    simp [changedOf, hashTruthy, hhash, hne, heq]
  have hmain : processDoc hashFn env doc =
      [Op.updateDoc (checkedUpdate env.now) (!env.checkedUpdateErr)] := by
    simp [processDoc, tryBody, hnav, heval, htr, hch]
  refine ⟨hmain, rfl, rfl, ?_, ?_, ?_⟩
  · intro r
    refine ⟨rfl, rfl, rfl, rfl, rfl, rfl, rfl⟩
  · rw [hmain]
    simp [List.countP_cons, isVersionInsert]
  · rw [hmain]
    simp [List.countP_cons, isUpload]

/-- A pending document whose stored hash already matches the digest of
`"body"`. -/
def exRowSame : DocRow := { exRow with content_hash := some "H2" }

/-- Witness for C3: processing `exRowSame` issues only the
status/last-checked update. -/
theorem unchanged_doc_touches_only_status_and_checked_witness :
    processDoc exHash exEnvOk exRowSame =
      [Op.updateDoc (checkedUpdate 5) true] :=
  (unchanged_doc_touches_only_status_and_checked exHash exEnvOk exRowSame "H2"
    rfl rfl rfl (by decide) (by decide)).1

/-- Claim C6: when the snapshot upload fails (and the document is on the
changed path, which is the only path that uploads), processing of that
document aborts before the document-row update: the only operations issued
are the rejected upload and the status→error update, whose update object
carries none of the content-capture fields (`title`, `latest_version`,
`snapshot_path`, `full_text`, `content_hash`, `retrieved_at`), and no version
row is inserted. -/
theorem upload_failure_aborts_document (hashFn : String → String)
    (env : DocEnv) (doc : DocRow)
    (hnav : env.navOk = true) (heval : env.evalOk = true)
    (hpdf : env.pdfOk = true)
    (hch : changedOf doc.content_hash (hashFn env.text) = true)
    (hup : env.uploadErr = true) :
    processDoc hashFn env doc =
      [Op.upload
        (snapshotPath doc.id
          (if hashTruthy doc.content_hash then jsOrNat doc.latest_version 1 + 1
           else jsOrNat doc.latest_version 1)) false,
       Op.updateDoc (errorUpdate env.now) (!env.markErrorUpdateErr)]
    ∧ (errorUpdate env.now).status = some "error"
    ∧ (errorUpdate env.now).title = none
    ∧ (errorUpdate env.now).latest_version = none
    ∧ (errorUpdate env.now).snapshot_path = none
    ∧ (errorUpdate env.now).full_text = none
    ∧ (errorUpdate env.now).content_hash = none
    ∧ (errorUpdate env.now).retrieved_at = none
    ∧ (processDoc hashFn env doc).countP isVersionInsert = 0 := by
  have hmain : processDoc hashFn env doc =
      [Op.upload
        (snapshotPath doc.id
          (if hashTruthy doc.content_hash then jsOrNat doc.latest_version 1 + 1
           else jsOrNat doc.latest_version 1)) false,
       Op.updateDoc (errorUpdate env.now) (!env.markErrorUpdateErr)] := by
    simp [processDoc, tryBody, hnav, heval, hpdf, hch, hup]
  refine ⟨hmain, rfl, rfl, rfl, rfl, rfl, rfl, rfl, ?_⟩
  rw [hmain]
  simp [List.countP_cons, isVersionInsert]

/-- An otherwise successful environment in which the storage upload is
rejected. -/
def exEnvUploadFail : DocEnv := { exEnvOk with uploadErr := true }

/-- Witness for C6: with the upload rejected, `exRow` yields only the failed
upload and the status→error update. -/
theorem upload_failure_aborts_document_witness :
    processDoc exHash exEnvUploadFail exRow =
      [Op.upload (snapshotPath 7 4) false, Op.updateDoc (errorUpdate 5) true]
    ∧ (processDoc exHash exEnvUploadFail exRow).countP isVersionInsert = 0 :=
  ⟨(upload_failure_aborts_document exHash exEnvUploadFail exRow rfl rfl rfl
      (by decide) rfl).1,
   (upload_failure_aborts_document exHash exEnvUploadFail exRow rfl rfl rfl
      (by decide) rfl).2.2.2.2.2.2.2.2⟩

/-- A pending document with no stored hash but a stale stored
`latest_version` of 5. -/
def exRowNullHash : DocRow :=
  { exRow with content_hash := none, latest_version := some 5 }

/-- Counterexample to C7 as stated: a document with `content_hash = null`
but a stored `latest_version` of 5 is captured as version 5, not version 1 —
the update's `latest_version` is not `some 1` and the inserted version row
carries version 5. -/
theorem null_hash_version_counterexample :
    processDoc exHash exEnvOk exRowNullHash =
      [Op.upload (snapshotPath 7 5) true,
       Op.updateDoc (contentUpdate "T" 5 (snapshotPath 7 5) "body" "H2" 5) true,
       Op.insertVersion ⟨7, 5, snapshotPath 7 5, "body", "H2", 5⟩ true]
    ∧ (contentUpdate "T" 5 (snapshotPath 7 5) "body" "H2" 5).latest_version
        ≠ some 1 := by
  exact ⟨rfl, by decide⟩

/-- Amended C7: for every document whose `content_hash` is null, a successful
pass updates the row to `status = "active"`, `content_hash` = the digest of
the fetched text, and `latest_version = v₀`, and inserts exactly one version
row with version `v₀` and that digest — where `v₀` is the stored
`latest_version` when present and non-zero, and 1 otherwise. -/
theorem null_hash_capture_uses_stored_or_default_version
    (hashFn : String → String) (env : DocEnv) (doc : DocRow)
    (hnav : env.navOk = true) (heval : env.evalOk = true)
    (hpdf : env.pdfOk = true) (hup : env.uploadErr = false)
    (htitle : env.titleOk = true)
    (hhash : doc.content_hash = none) :
    processDoc hashFn env doc =
      [Op.upload (snapshotPath doc.id (jsOrNat doc.latest_version 1)) true,
       Op.updateDoc
         (contentUpdate env.title (jsOrNat doc.latest_version 1)
           (snapshotPath doc.id (jsOrNat doc.latest_version 1)) env.text
           (hashFn env.text) env.now) (!env.docUpdateErr),
       Op.insertVersion
         { reg_document_id := doc.id
           version := jsOrNat doc.latest_version 1
           snapshot_path := snapshotPath doc.id (jsOrNat doc.latest_version 1)
           full_text := env.text
           content_hash := hashFn env.text
           retrieved_at := env.now } (!env.versionInsertErr)]
    ∧ (contentUpdate env.title (jsOrNat doc.latest_version 1)
         (snapshotPath doc.id (jsOrNat doc.latest_version 1)) env.text
         (hashFn env.text) env.now).status = some "active"
    ∧ (contentUpdate env.title (jsOrNat doc.latest_version 1)
         (snapshotPath doc.id (jsOrNat doc.latest_version 1)) env.text
         (hashFn env.text) env.now).content_hash = some (hashFn env.text)
    ∧ (contentUpdate env.title (jsOrNat doc.latest_version 1)
         (snapshotPath doc.id (jsOrNat doc.latest_version 1)) env.text
         (hashFn env.text) env.now).latest_version
        = some (jsOrNat doc.latest_version 1)
    ∧ (processDoc hashFn env doc).countP isVersionInsert = 1 := by
  have htr : hashTruthy doc.content_hash = false := by
    simp [hashTruthy, hhash]
  have hch : changedOf doc.content_hash (hashFn env.text) = true := by
    simp [changedOf, htr]
  have hmain : processDoc hashFn env doc =
      [Op.upload (snapshotPath doc.id (jsOrNat doc.latest_version 1)) true,
       Op.updateDoc
         (contentUpdate env.title (jsOrNat doc.latest_version 1)
           (snapshotPath doc.id (jsOrNat doc.latest_version 1)) env.text
           (hashFn env.text) env.now) (!env.docUpdateErr),
       Op.insertVersion
         { reg_document_id := doc.id
           version := jsOrNat doc.latest_version 1
           snapshot_path := snapshotPath doc.id (jsOrNat doc.latest_version 1)
           full_text := env.text
           content_hash := hashFn env.text
           retrieved_at := env.now } (!env.versionInsertErr)] := by
    simp [processDoc, tryBody, hnav, heval, hpdf, hup, htitle, htr, hch]
  refine ⟨hmain, rfl, rfl, rfl, ?_⟩
  rw [hmain]
  simp [List.countP_cons, isVersionInsert]

/-- A never-captured document: no stored hash, no stored version. -/
def exRowFresh : DocRow :=
  { exRow with content_hash := none, latest_version := none }

/-- Witness for amended C7: a fresh document (`content_hash` and
`latest_version` both null) is captured as version 1, matching the spec's
first-capture scenario. -/
theorem null_hash_capture_witness :
    (contentUpdate "T" 1 (snapshotPath 7 1) "body" "H2" 5).latest_version
      = some 1
    ∧ (processDoc exHash exEnvOk exRowFresh).countP isVersionInsert = 1 :=
  ⟨(null_hash_capture_uses_stored_or_default_version exHash exEnvOk exRowFresh
      rfl rfl rfl rfl rfl rfl).2.2.2.1,
   (null_hash_capture_uses_stored_or_default_version exHash exEnvOk exRowFresh
      rfl rfl rfl rfl rfl rfl).2.2.2.2⟩

/-- A one-document store holding `exRow`. -/
def exStore1 : Store := { docs := [exRow], versions := [], blobs := [] }

/-- An otherwise successful environment in which the store rejects the
document-row update of the changed path (its result is never read). -/
def exEnvDocUpdFail : DocEnv := { exEnvOk with docUpdateErr := true }

/-- Counterexample to C4 as stated: the store rejects the document-row
update — the row keeps `latest_version = 3` and `status = "pending"` — yet
the version row (version 4) is still written, because the update's result is
never inspected. -/
theorem version_insert_despite_update_failure :
    ((applyOps exStore1 7 (processDoc exHash exEnvDocUpdFail exRow)).versions.map
        VersionRow.version = [4])
    ∧ ((applyOps exStore1 7 (processDoc exHash exEnvDocUpdFail exRow)).docs.map
        DocRow.latest_version = [some 3])
    ∧ ((applyOps exStore1 7 (processDoc exHash exEnvDocUpdFail exRow)).docs.map
        DocRow.status = ["pending"]) := by
  refine ⟨rfl, rfl, rfl⟩

/-- Amended C4: whenever a version-row insert is issued, it is issued
strictly after the document-row update call of the changed path — but the
update's result is not inspected: the insert is issued whether or not the
store accepted the update (and its own result is likewise ignored).  Only a
thrown error earlier in the body (e.g. the checked upload failure) prevents
the insert. -/
theorem version_insert_follows_update_call (hashFn : String → String)
    (env : DocEnv) (doc : DocRow)
    (hins : (processDoc hashFn env doc).any isVersionInsert = true) :
    ∃ p u w, processDoc hashFn env doc =
      [Op.upload p true, Op.updateDoc u (!env.docUpdateErr),
       Op.insertVersion w (!env.versionInsertErr)] := by
  cases hnav : env.navOk with
  | false => simp [processDoc, tryBody, hnav, isVersionInsert] at hins
  | true =>
  cases heval : env.evalOk with
  | false => simp [processDoc, tryBody, hnav, heval, isVersionInsert] at hins
  | true =>
  cases hbr : hashTruthy doc.content_hash
      && !changedOf doc.content_hash (hashFn env.text) with
  | true => simp [processDoc, tryBody, hnav, heval, hbr, isVersionInsert] at hins
  | false =>
  cases hpdf : env.pdfOk with
  | false =>
      simp [processDoc, tryBody, hnav, heval, hbr, hpdf, isVersionInsert] at hins
  | true =>
  cases hup : env.uploadErr with
  | true =>
      simp [processDoc, tryBody, hnav, heval, hbr, hpdf, hup, isVersionInsert]
        at hins
  | false =>
  cases htitle : env.titleOk with
  | false =>
      simp [processDoc, tryBody, hnav, heval, hbr, hpdf, hup, htitle,
        isVersionInsert] at hins
  | true =>
      refine ⟨snapshotPath doc.id
          (if hashTruthy doc.content_hash then jsOrNat doc.latest_version 1 + 1
           else jsOrNat doc.latest_version 1),
        contentUpdate env.title
          (if hashTruthy doc.content_hash then jsOrNat doc.latest_version 1 + 1
           else jsOrNat doc.latest_version 1)
          (snapshotPath doc.id
            (if hashTruthy doc.content_hash then jsOrNat doc.latest_version 1 + 1
             else jsOrNat doc.latest_version 1)) env.text (hashFn env.text)
          env.now,
        { reg_document_id := doc.id
          version :=
            if hashTruthy doc.content_hash then jsOrNat doc.latest_version 1 + 1
            else jsOrNat doc.latest_version 1
          snapshot_path := snapshotPath doc.id
            (if hashTruthy doc.content_hash then jsOrNat doc.latest_version 1 + 1
             else jsOrNat doc.latest_version 1)
          full_text := env.text
          content_hash := hashFn env.text
          retrieved_at := env.now }, ?_⟩
      simp [processDoc, tryBody, hnav, heval, hbr, hpdf, hup, htitle]

/-- Witness for amended C4: with the document-row update rejected by the
store, the insert is still issued right after the update. -/
theorem version_insert_follows_update_call_witness :
    (processDoc exHash exEnvDocUpdFail exRow).any isVersionInsert = true
    ∧ ∃ p u w, processDoc exHash exEnvDocUpdFail exRow =
        [Op.upload p true, Op.updateDoc u (!exEnvDocUpdFail.docUpdateErr),
         Op.insertVersion w (!exEnvDocUpdFail.versionInsertErr)] :=
  ⟨by decide,
   version_insert_follows_update_call exHash exEnvDocUpdFail exRow (by decide)⟩

/-- An otherwise successful environment in which the store rejects the
version-row insert (its result is never read). -/
def exEnvInsFail : DocEnv := { exEnvOk with versionInsertErr := true }

/-- Counterexample to C5 as stated: the store rejects the version-row insert
— an error during persistence of `exRow` — yet no status→error update is
issued: the document ends `"active"`, not `"error"`, and the failure is
silently swallowed. -/
theorem persistence_error_not_marked_counterexample :
    (processDoc exHash exEnvInsFail exRow).countP isErrorMark = 0
    ∧ ((applyOps exStore1 7 (processDoc exHash exEnvInsFail exRow)).docs.map
        DocRow.status = ["active"])
    ∧ (applyOps exStore1 7 (processDoc exHash exEnvInsFail exRow)).versions
        = [] := by
  refine ⟨rfl, rfl, rfl⟩

/-- Amended C5: errors reported by the store for the document-row update or
the version-row insert (and for the unchanged-branch update) are ignored:
whatever those verdicts are, the try body completes without throwing, no
status→error update is ever issued on this path, and the loop still attempts
every fetched document. -/
theorem update_insert_errors_ignored (hashFn : String → String)
    (env : DocEnv) (doc : DocRow)
    (hnav : env.navOk = true) (heval : env.evalOk = true)
    (hpdf : env.pdfOk = true) (hup : env.uploadErr = false)
    (htitle : env.titleOk = true) :
    (tryBody hashFn env doc).2 = false
    ∧ (processDoc hashFn env doc).countP isErrorMark = 0
    ∧ (∀ envOf st, (runTrace hashFn envOf st).map Prod.fst
        = (selectPending st).map DocRow.id) := by
  cases hbr : hashTruthy doc.content_hash
      && !changedOf doc.content_hash (hashFn env.text) with
  | true =>
      refine ⟨?_, ?_, fun envOf st => runTrace_map_fst hashFn envOf st⟩
      · simp [tryBody, hnav, heval, hbr]
      · simp [processDoc, tryBody, hnav, heval, hbr, List.countP_cons,
          isErrorMark, checkedUpdate]
  | false =>
      refine ⟨?_, ?_, fun envOf st => runTrace_map_fst hashFn envOf st⟩
      · simp [tryBody, hnav, heval, hbr, hpdf, hup, htitle]
      · simp [processDoc, tryBody, hnav, heval, hbr, hpdf, hup, htitle,
          List.countP_cons, isErrorMark, contentUpdate]

/-- Witness for amended C5: with the version-row insert rejected, the body
completes without throwing and no status→error update is issued. -/
theorem update_insert_errors_ignored_witness :
    (tryBody exHash exEnvInsFail exRow).2 = false
    ∧ (processDoc exHash exEnvInsFail exRow).countP isErrorMark = 0 :=
  ⟨(update_insert_errors_ignored exHash exEnvInsFail exRow rfl rfl rfl rfl
      rfl).1,
   (update_insert_errors_ignored exHash exEnvInsFail exRow rfl rfl rfl rfl
      rfl).2.1⟩

/-- When the try body throws, the operations it has issued so far are at
most one upload: no document-row update and no version-row insert precede a
throw. -/
theorem tryBody_throw_ops (hashFn : String → String) (env : DocEnv)
    (doc : DocRow) (hthrow : (tryBody hashFn env doc).2 = true) :
    (tryBody hashFn env doc).1 = []
    ∨ ∃ p b, (tryBody hashFn env doc).1 = [Op.upload p b] := by
  cases hnav : env.navOk with
  | false => left; simp [tryBody, hnav]
  | true =>
  cases heval : env.evalOk with
  | false => left; simp [tryBody, hnav, heval]
  | true =>
  cases hbr : hashTruthy doc.content_hash
      && !changedOf doc.content_hash (hashFn env.text) with
  | true => simp [tryBody, hnav, heval, hbr] at hthrow
  | false =>
  cases hpdf : env.pdfOk with
  | false => left; simp [tryBody, hnav, heval, hbr, hpdf]
  | true =>
  cases hup : env.uploadErr with
  | true =>
      right
      refine ⟨snapshotPath doc.id
          (if hashTruthy doc.content_hash then jsOrNat doc.latest_version 1 + 1
           else jsOrNat doc.latest_version 1), false, ?_⟩
      simp [tryBody, hnav, heval, hbr, hpdf, hup]
  | false =>
  cases htitle : env.titleOk with
  | false =>
      right
      refine ⟨snapshotPath doc.id
          (if hashTruthy doc.content_hash then jsOrNat doc.latest_version 1 + 1
           else jsOrNat doc.latest_version 1), true, ?_⟩
      simp [tryBody, hnav, heval, hbr, hpdf, hup, htitle]
  | true => simp [tryBody, hnav, heval, hbr, hpdf, hup, htitle] at hthrow

/-- Claim C10: the catch block's status→error update never has its result
inspected: when the store rejects it, the rejection is silently swallowed —
the trace ends with the unapplied update, the document rows (and version
rows) of the store are left exactly as they were, and the loop still
attempts every fetched document without raising. -/
theorem error_mark_result_ignored (hashFn : String → String) (env : DocEnv)
    (doc : DocRow)
    (hthrow : (tryBody hashFn env doc).2 = true)
    (hmark : env.markErrorUpdateErr = true) :
    processDoc hashFn env doc =
      (tryBody hashFn env doc).1 ++ [Op.updateDoc (errorUpdate env.now) false]
    ∧ (∀ st : Store,
        (applyOps st doc.id (processDoc hashFn env doc)).docs = st.docs
        ∧ (applyOps st doc.id (processDoc hashFn env doc)).versions
            = st.versions)
    ∧ (∀ envOf st, (runTrace hashFn envOf st).map Prod.fst
        = (selectPending st).map DocRow.id) := by
  have hproc : processDoc hashFn env doc =
      (tryBody hashFn env doc).1
        ++ [Op.updateDoc (errorUpdate env.now) false] := by
    rcases hP : tryBody hashFn env doc with ⟨ops, thr⟩
    rw [hP] at hthrow
    simp only at hthrow
    subst hthrow
    simp [processDoc, hP, hmark]
  refine ⟨hproc, ?_, fun envOf st => runTrace_map_fst hashFn envOf st⟩
  intro st
  rcases tryBody_throw_ops hashFn env doc hthrow with hnil | ⟨p, b, hone⟩
  · rw [hproc, hnil]
    simp [applyOps, applyOp]
  · rw [hproc, hone]
    cases b <;> simp [applyOps, applyOp, upsertBlob]

/-- Witness for C10: document 7 fails navigation, the store rejects the
status→error update, and the store's rows are untouched. -/
theorem error_mark_result_ignored_witness :
    processDoc exHash exEnvFail exRow = [Op.updateDoc (errorUpdate 9) false]
    ∧ (applyOps exStore1 7 (processDoc exHash exEnvFail exRow)).docs
        = exStore1.docs :=
  ⟨(error_mark_result_ignored exHash exEnvFail exRow rfl rfl).1,
   ((error_mark_result_ignored exHash exEnvFail exRow rfl rfl).2.1 exStore1).1⟩
